import Mathlib

/-!
Shallow embedding of the score-generation core of the Alzheimers
voice-analysis demo (`AlzheimersDetectionSystem`).  JavaScript numbers are
modelled as rationals; `Math.round` is modelled by `jsRound`; the uniform
draws of `Math.random()` are passed in explicitly, so every function of the
core becomes a pure function of its random inputs.
-/

/-- JavaScript `Math.round`: rounds half away toward positive infinity,
i.e. `⌊x + 1/2⌋`. -/
def jsRound (x : ℚ) : ℤ := ⌊x + 1 / 2⌋

/-- The `VoiceBiomarker` interface: a named weighted sub-score.  `name` and
`description` are translation keys, modelled as strings; `value` is the
integer produced by `generateWeightedValue`. -/
structure VoiceBiomarker where
  name : String
  value : ℤ
  weight : ℚ
  description : String
deriving DecidableEq, Repr

/-- The union type High | Moderate | Low of the `risk` field. -/
inductive Risk where
  | High
  | Moderate
  | Low
deriving DecidableEq, Repr

/-- The `indicators` record of `AnalysisResult`: 8 fixed named fields. -/
structure Indicators where
  speechClarity : ℤ
  wordRecall : ℤ
  sentenceStructure : ℤ
  pausePatterns : ℤ
  prosody : ℤ
  articulationRate : ℤ
  voiceQuality : ℤ
  semanticCoherence : ℤ
deriving DecidableEq, Repr

/-- The `AnalysisResult` interface. -/
structure AnalysisResult where
  score : ℤ
  risk : Risk
  confidence : ℤ
  indicators : Indicators
  biomarkers : List VoiceBiomarker
  detected : Bool
deriving DecidableEq, Repr

/-- Source function `generateWeightedValue(min, max)`:
`Math.round(min + raw * (max - min))` where `raw = Math.pow(Math.random(), 0.7)`.
The draw `raw` is passed explicitly; since `u ↦ u^0.7` maps `[0,1)` onto
`[0,1)`, `raw` ranges over `[0,1)` exactly when the uniform draw does. -/
def generateWeightedValue (min max : ℚ) (raw : ℚ) : ℤ :=
  jsRound (min + raw * (max - min))

/-- Source function `generateConsistentValue(baseValue, variation)`:
`min = Math.max(0, baseValue - variation)`, `max = Math.min(100, baseValue + variation)`,
returns `Math.round(min + u * (max - min))` for a uniform draw `u`.
The local constants of the source named min and max are renamed `mn`/`mx`
so that the `min`/`max` functions stay in scope. -/
def generateConsistentValue (baseValue variation : ℚ) (u : ℚ) : ℤ :=
  let mn := max 0 (baseValue - variation)
  let mx := min 100 (baseValue + variation)
  jsRound (mn + u * (mx - mn))

/-- Source function `calculateWeightedScore(biomarkers)`: accumulates
`weightedSum = Σ value·weight` and `totalWeight = Σ weight`, then returns
`Math.round(weightedSum / totalWeight)`.  When `totalWeight = 0` the
JavaScript division yields a non-finite value (`NaN` for the empty catalog);
that outcome is rendered as `none`.  The source performs no emptiness
check. -/
def calculateWeightedScore (biomarkers : List VoiceBiomarker) : Option ℤ :=
  let totalWeight := (biomarkers.map VoiceBiomarker.weight).sum
  let weightedSum := (biomarkers.map fun marker => (marker.value : ℚ) * marker.weight).sum
  if totalWeight = 0 then none else some (jsRound (weightedSum / totalWeight))

/-- The risk-tier branch of `analyzeAudio`:
`weightedScore < 70 → High`, `< 85 → Moderate`, otherwise `Low`. -/
def risk (weightedScore : ℤ) : Risk :=
  if weightedScore < 70 then Risk.High
  else if weightedScore < 85 then Risk.Moderate
  else Risk.Low

/-- Source line `const detected = weightedScore < 78` of `analyzeAudio`. -/
def detected (weightedScore : ℤ) : Bool :=
  weightedScore < 78

/-- Source constant `confidenceBase = 85`. -/
def confidenceBase : ℚ := 85

/-- Source constant `confidenceVariation = 10`. -/
def confidenceVariation : ℚ := 10

/-- Source expression `confidence = Math.min(98, Math.max(80, confidenceBase +
(Math.random() * confidenceVariation - confidenceVariation / 2)))` from
`analyzeAudio`, with the uniform draw `u` passed explicitly. -/
def confidence (u : ℚ) : ℚ :=
  min 98 (max 80 (confidenceBase + (u * confidenceVariation - confidenceVariation / 2)))

/-- The fixed biomarker catalog built in `analyzeAudio`, as a function of the
8 draws `r i` (each standing for the `Math.pow(Math.random(), 0.7)` consumed
by the corresponding `generateWeightedValue` call). -/
def biomarkers (r : Fin 8 → ℚ) : List VoiceBiomarker :=
  [ { name := "phonemeArticulation"
      value := generateWeightedValue 65 95 (r 0)
      weight := 0.15
      description := "phonemeArticulationDesc" },
    { name := "pauseFrequency"
      value := generateWeightedValue 60 90 (r 1)
      weight := 0.12
      description := "pauseFrequencyDesc" },
    { name := "lexicalDiversity"
      value := generateWeightedValue 70 95 (r 2)
      weight := 0.13
      description := "lexicalDiversityDesc" },
    { name := "speechRateConsistency"
      value := generateWeightedValue 65 90 (r 3)
      weight := 0.10
      description := "speechRateConsistencyDesc" },
    { name := "semanticCoherenceBio"
      value := generateWeightedValue 60 95 (r 4)
      weight := 0.18
      description := "semanticCoherenceBioDesc" },
    { name := "prosodicVariation"
      value := generateWeightedValue 70 90 (r 5)
      weight := 0.12
      description := "prosodicVariationDesc" },
    { name := "voiceTremor"
      value := generateWeightedValue 75 95 (r 6)
      weight := 0.10
      description := "voiceTremorDesc" },
    { name := "wordFindingDelay"
      value := generateWeightedValue 60 90 (r 7)
      weight := 0.10
      description := "wordFindingDelayDesc" } ]

/-- The per-biomarker `(min, max)` bound pairs passed to
`generateWeightedValue` in the catalog, in catalog order. -/
def biomarkerBounds : List (ℚ × ℚ) :=
  [(65, 95), (60, 90), (70, 95), (65, 90), (60, 95), (70, 90), (75, 95), (60, 90)]

/-- The `indicators` object built in `analyzeAudio`: each field is
`generateConsistentValue(weightedScore, spread)` with the fixed per-field
spreads 10, 15, 12, 8, 10, 7, 9, 14, each consuming its own uniform draw
`u i`. -/
def indicators (weightedScore : ℤ) (u : Fin 8 → ℚ) : Indicators :=
  { speechClarity := generateConsistentValue (weightedScore : ℚ) 10 (u 0)
    wordRecall := generateConsistentValue (weightedScore : ℚ) 15 (u 1)
    sentenceStructure := generateConsistentValue (weightedScore : ℚ) 12 (u 2)
    pausePatterns := generateConsistentValue (weightedScore : ℚ) 8 (u 3)
    prosody := generateConsistentValue (weightedScore : ℚ) 10 (u 4)
    articulationRate := generateConsistentValue (weightedScore : ℚ) 7 (u 5)
    voiceQuality := generateConsistentValue (weightedScore : ℚ) 9 (u 6)
    semanticCoherence := generateConsistentValue (weightedScore : ℚ) 14 (u 7) }

/-- The random draws one invocation of `analyzeAudio` consumes:
8 biomarker draws (each already raised to the power 0.7, see
`generateWeightedValue`), the confidence draw, and 8 indicator draws. -/
structure Randoms where
  biomarkerRaw : Fin 8 → ℚ
  confidenceU : ℚ
  indicatorU : Fin 8 → ℚ

/-- All draws of a `Randoms` lie in `[0,1)`, as `Math.random()` (and its
image under `u ↦ u^0.7`) guarantees. -/
def Randoms.valid (rng : Randoms) : Prop :=
  (∀ i, 0 ≤ rng.biomarkerRaw i ∧ rng.biomarkerRaw i < 1) ∧
  (0 ≤ rng.confidenceU ∧ rng.confidenceU < 1) ∧
  (∀ i, 0 ≤ rng.indicatorU i ∧ rng.indicatorU i < 1)

/-- The body of `analyzeAudio(audioData)` after the simulated delay: builds
the catalog, aggregates the weighted score, classifies risk, computes
confidence and indicators, and bundles the `AnalysisResult`.  The
`audioData` handle is never inspected by the source, so it is a value of an
arbitrary type here.  The result is `none` exactly when the aggregate is
non-finite, which the fixed catalog never produces. -/
def analyzeAudio {α : Type} (audioData : α) (rng : Randoms) : Option AnalysisResult :=
  let bs := biomarkers rng.biomarkerRaw
  (calculateWeightedScore bs).map fun weightedScore =>
    { score := weightedScore
      risk := risk weightedScore
      confidence := jsRound (confidence rng.confidenceU)
      indicators := indicators weightedScore rng.indicatorU
      biomarkers := bs
      detected := detected weightedScore }

/-! ### Helper lemmas about `jsRound` and the generators -/

/-- Rounding respects integer lower bounds. -/
lemma le_jsRound {a : ℤ} {x : ℚ} (h : (a : ℚ) ≤ x) : a ≤ jsRound x := by
  unfold jsRound
  exact Int.le_floor.mpr (by linarith)

/-- Rounding respects integer upper bounds. -/
lemma jsRound_le {b : ℤ} {x : ℚ} (h : x ≤ (b : ℚ)) : jsRound x ≤ b := by
  unfold jsRound
  have : ⌊x + 1 / 2⌋ < b + 1 := Int.floor_lt.mpr (by push_cast; linarith)
  omega

/-- With integer bounds `a ≤ b` and a draw in
`[0,1)`, `generateWeightedValue` lands in `[a, b]`. -/
lemma generateWeightedValue_bounds (a b : ℤ) (raw : ℚ) (hab : a ≤ b)
    (h0 : 0 ≤ raw) (h1 : raw < 1) :
    a ≤ generateWeightedValue (a : ℚ) (b : ℚ) raw ∧
      generateWeightedValue (a : ℚ) (b : ℚ) raw ≤ b := by
  have hab' : (a : ℚ) ≤ (b : ℚ) := by exact_mod_cast hab
  have hlow : (0 : ℚ) ≤ raw * ((b : ℚ) - a) := mul_nonneg h0 (by linarith)
  have hhigh : raw * ((b : ℚ) - a) ≤ (b : ℚ) - a := by
    have := mul_le_mul_of_nonneg_right (le_of_lt h1) (show (0 : ℚ) ≤ (b : ℚ) - a by linarith)
    linarith
  unfold generateWeightedValue
  constructor
  · exact le_jsRound (by linarith)
  · exact jsRound_le (by linarith)

/-- At an integer base in `[0,100]`, an integer
non-negative variation and a draw in `[0,1)`, `generateConsistentValue`
lands in `[0,100]` and stays within `variation` of the base. -/
lemma generateConsistentValue_bounds (base v : ℤ) (u : ℚ) (hb0 : 0 ≤ base)
    (hb1 : base ≤ 100) (hv : 0 ≤ v) (hu0 : 0 ≤ u) (hu1 : u < 1) :
    0 ≤ generateConsistentValue (base : ℚ) (v : ℚ) u ∧
      generateConsistentValue (base : ℚ) (v : ℚ) u ≤ 100 ∧
      |generateConsistentValue (base : ℚ) (v : ℚ) u - base| ≤ v := by
  have hb0' : (0 : ℚ) ≤ (base : ℚ) := by exact_mod_cast hb0
  have hb1' : (base : ℚ) ≤ 100 := by exact_mod_cast hb1
  have hv' : (0 : ℚ) ≤ (v : ℚ) := by exact_mod_cast hv
  have key : generateConsistentValue (base : ℚ) (v : ℚ) u =
      jsRound (max (0 : ℚ) ((base : ℚ) - v) +
        u * (min (100 : ℚ) ((base : ℚ) + v) - max (0 : ℚ) ((base : ℚ) - v))) := rfl
  rw [key]
  set mn := max (0 : ℚ) ((base : ℚ) - v) with hmn
  set mx := min (100 : ℚ) ((base : ℚ) + v) with hmx
  have h1 : (0 : ℚ) ≤ mn := le_max_left _ _
  have h2 : (base : ℚ) - v ≤ mn := le_max_right _ _
  have h3 : mx ≤ 100 := min_le_left _ _
  have h4 : mx ≤ (base : ℚ) + v := min_le_right _ _
  have h5 : mn ≤ (base : ℚ) := max_le hb0' (by linarith)
  have h6 : (base : ℚ) ≤ mx := le_min hb1' (by linarith)
  have h7 : mn ≤ mx := le_trans h5 h6
  have hxlow : (0 : ℚ) ≤ u * (mx - mn) := mul_nonneg hu0 (by linarith)
  have hxhigh : u * (mx - mn) ≤ mx - mn := by
    have := mul_le_mul_of_nonneg_right (le_of_lt hu1) (show (0 : ℚ) ≤ mx - mn by linarith)
    linarith
  refine ⟨le_jsRound (by push_cast; linarith), jsRound_le (by push_cast; linarith), ?_⟩
  have hlb : base - v ≤ jsRound (mn + u * (mx - mn)) :=
    le_jsRound (by push_cast; linarith)
  have hub : jsRound (mn + u * (mx - mn)) ≤ base + v :=
    jsRound_le (by push_cast; linarith)
  rw [abs_le]
  omega

/-- Weights of the fixed catalog sum to exactly 1. -/
lemma biomarkers_weight_sum (r : Fin 8 → ℚ) :
    ((biomarkers r).map VoiceBiomarker.weight).sum = 1 := by
  simp [biomarkers]
  norm_num

/-- The integer aggregate of the fixed catalog, as a pure function of the
8 biomarker draws. -/
def scoreOf (r : Fin 8 → ℚ) : ℤ :=
  jsRound (((biomarkers r).map fun marker => (marker.value : ℚ) * marker.weight).sum)

/-- On the fixed catalog the aggregator always succeeds, with the weighted
sum divided by a total weight of 1. -/
lemma calculateWeightedScore_biomarkers (r : Fin 8 → ℚ) :
    calculateWeightedScore (biomarkers r) = some (scoreOf r) := by
  unfold calculateWeightedScore scoreOf
  rw [biomarkers_weight_sum]
  norm_num

/-- Full evaluation of `analyzeAudio`: it always returns `some` result,
whose fields are the component functions applied to `scoreOf`. -/
lemma analyzeAudio_some {α : Type} (x : α) (rng : Randoms) :
    analyzeAudio x rng = some
      { score := scoreOf rng.biomarkerRaw
        risk := risk (scoreOf rng.biomarkerRaw)
        confidence := jsRound (confidence rng.confidenceU)
        indicators := indicators (scoreOf rng.biomarkerRaw) rng.indicatorU
        biomarkers := biomarkers rng.biomarkerRaw
        detected := detected (scoreOf rng.biomarkerRaw) } := by
  simp only [analyzeAudio]
  rw [calculateWeightedScore_biomarkers]
  rfl

/-- The weighted aggregate of the fixed catalog lies in `[65, 93]` whenever
all 8 biomarker draws lie in `[0,1)`. -/
lemma scoreOf_bounds (r : Fin 8 → ℚ) (hv : ∀ i, 0 ≤ r i ∧ r i < 1) :
    65 ≤ scoreOf r ∧ scoreOf r ≤ 93 := by
  have q0 : (65 : ℚ) ≤ (generateWeightedValue 65 95 (r 0) : ℚ) ∧
      (generateWeightedValue 65 95 (r 0) : ℚ) ≤ 95 := by
    exact_mod_cast generateWeightedValue_bounds 65 95 (r 0) (by norm_num) (hv 0).1 (hv 0).2
  have q1 : (60 : ℚ) ≤ (generateWeightedValue 60 90 (r 1) : ℚ) ∧
      (generateWeightedValue 60 90 (r 1) : ℚ) ≤ 90 := by
    exact_mod_cast generateWeightedValue_bounds 60 90 (r 1) (by norm_num) (hv 1).1 (hv 1).2
  have q2 : (70 : ℚ) ≤ (generateWeightedValue 70 95 (r 2) : ℚ) ∧
      (generateWeightedValue 70 95 (r 2) : ℚ) ≤ 95 := by
    exact_mod_cast generateWeightedValue_bounds 70 95 (r 2) (by norm_num) (hv 2).1 (hv 2).2
  have q3 : (65 : ℚ) ≤ (generateWeightedValue 65 90 (r 3) : ℚ) ∧
      (generateWeightedValue 65 90 (r 3) : ℚ) ≤ 90 := by
    exact_mod_cast generateWeightedValue_bounds 65 90 (r 3) (by norm_num) (hv 3).1 (hv 3).2
  have q4 : (60 : ℚ) ≤ (generateWeightedValue 60 95 (r 4) : ℚ) ∧
      (generateWeightedValue 60 95 (r 4) : ℚ) ≤ 95 := by
    exact_mod_cast generateWeightedValue_bounds 60 95 (r 4) (by norm_num) (hv 4).1 (hv 4).2
  have q5 : (70 : ℚ) ≤ (generateWeightedValue 70 90 (r 5) : ℚ) ∧
      (generateWeightedValue 70 90 (r 5) : ℚ) ≤ 90 := by
    exact_mod_cast generateWeightedValue_bounds 70 90 (r 5) (by norm_num) (hv 5).1 (hv 5).2
  have q6 : (75 : ℚ) ≤ (generateWeightedValue 75 95 (r 6) : ℚ) ∧
      (generateWeightedValue 75 95 (r 6) : ℚ) ≤ 95 := by
    exact_mod_cast generateWeightedValue_bounds 75 95 (r 6) (by norm_num) (hv 6).1 (hv 6).2
  have q7 : (60 : ℚ) ≤ (generateWeightedValue 60 90 (r 7) : ℚ) ∧
      (generateWeightedValue 60 90 (r 7) : ℚ) ≤ 90 := by
    exact_mod_cast generateWeightedValue_bounds 60 90 (r 7) (by norm_num) (hv 7).1 (hv 7).2
  have hs : scoreOf r = jsRound
      ((generateWeightedValue 65 95 (r 0) : ℚ) * 0.15 +
        ((generateWeightedValue 60 90 (r 1) : ℚ) * 0.12 +
          ((generateWeightedValue 70 95 (r 2) : ℚ) * 0.13 +
            ((generateWeightedValue 65 90 (r 3) : ℚ) * 0.10 +
              ((generateWeightedValue 60 95 (r 4) : ℚ) * 0.18 +
                ((generateWeightedValue 70 90 (r 5) : ℚ) * 0.12 +
                  ((generateWeightedValue 75 95 (r 6) : ℚ) * 0.10 +
                    ((generateWeightedValue 60 90 (r 7) : ℚ) * 0.10 + 0)))))))) := rfl
  rw [hs]
  constructor
  · apply le_jsRound
    push_cast
    nlinarith [q0.1, q1.1, q2.1, q3.1, q4.1, q5.1, q6.1, q7.1]
  · apply jsRound_le
    push_cast
    nlinarith [q0.2, q1.2, q2.2, q3.2, q4.2, q5.2, q6.2, q7.2]

/-- Draws that are all the same rational `q`. -/
def rngAll (q : ℚ) : Randoms :=
  { biomarkerRaw := fun _ => q, confidenceU := q, indicatorU := fun _ => q }

/-- The all-zero draw: every biomarker comes out at its lower bound. -/
def rng0 : Randoms := rngAll 0

/-- Biomarker draws that make every biomarker value equal to 80, so the
composite score is exactly 80. -/
def rawsMid : Fin 8 → ℚ
  | 0 => 1/2
  | 1 => 2/3
  | 2 => 2/5
  | 3 => 3/5
  | 4 => 4/7
  | 5 => 1/2
  | 6 => 1/4
  | 7 => 2/3

/-- Draws yielding a composite score of 80 (Moderate band). -/
def rngMid : Randoms :=
  { biomarkerRaw := rawsMid, confidenceU := 0, indicatorU := fun _ => 0 }

/-- Draws near 1: every biomarker comes out at its upper bound. -/
def rngHigh : Randoms := rngAll (99/100)

/-- With all-zero draws every biomarker sits at its lower bound and the
aggregate is `round(65.25) = 65`. -/
lemma scoreOf_rng0 : scoreOf rng0.biomarkerRaw = 65 := by
  norm_num [scoreOf, biomarkers, generateWeightedValue, jsRound, rng0, rngAll]

/-- With the `rawsMid` draws every biomarker value is 80 and so is the
aggregate. -/
lemma scoreOf_rngMid : scoreOf rngMid.biomarkerRaw = 80 := by
  norm_num [scoreOf, biomarkers, generateWeightedValue, jsRound, rngMid, rawsMid]

/-- With draws of 0.99 every biomarker sits at its upper bound and the
aggregate is `round(92.8) = 93`. -/
lemma scoreOf_rngHigh : scoreOf rngHigh.biomarkerRaw = 93 := by
  norm_num [scoreOf, biomarkers, generateWeightedValue, jsRound, rngHigh, rngAll]

lemma rng0_valid : rng0.valid := by
  refine ⟨fun i => ?_, ?_, fun i => ?_⟩ <;> norm_num [rng0, rngAll]

lemma rngMid_valid : rngMid.valid := by
  refine ⟨fun i => ?_, by norm_num [rngMid], fun i => by norm_num [rngMid]⟩
  fin_cases i <;> norm_num [rngMid, rawsMid]

lemma rngHigh_valid : rngHigh.valid := by
  refine ⟨fun i => ?_, ?_, fun i => ?_⟩ <;> norm_num [rngHigh, rngAll]

/-! ### Claim theorems -/

/-- C2: the `detected` flag of the Analysis Result is `true` iff the
composite score is strictly below 78, independently of the risk tier; in
particular this holds for results in the Moderate band. -/
theorem C2_detected_iff_score_lt_78 {α : Type} (x : α) (rng : Randoms)
    (res : AnalysisResult) (h : analyzeAudio x rng = some res) :
    (res.detected = true ↔ res.score < 78) ∧
    (res.risk = Risk.Moderate → (res.detected = true ↔ res.score < 78)) := by
  rw [analyzeAudio_some] at h
  obtain rfl := Option.some.inj h
  exact ⟨by simp [detected], fun _ => by simp [detected]⟩

/-- Witness for C2 at the all-zero draws. -/
theorem C2_detected_iff_score_lt_78_witness :
    ∃ res : AnalysisResult, analyzeAudio ("recorded-audio-data") rng0 = some res ∧
      (res.detected = true ↔ res.score < 78) :=
  ⟨_, analyzeAudio_some ("recorded-audio-data") rng0,
    (C2_detected_iff_score_lt_78 ("recorded-audio-data") rng0 _
      (analyzeAudio_some ("recorded-audio-data") rng0)).1⟩

/-- C3: the risk classification is a total, non-overlapping function of the
integer composite score: `< 70 → High`, `70 ≤ · < 85 → Moderate`,
`≥ 85 → Low`. -/
theorem C3_risk_partition (s : ℤ) (h0 : 0 ≤ s) (h1 : s ≤ 100) :
    (risk s = Risk.High ↔ s < 70) ∧
    (risk s = Risk.Moderate ↔ 70 ≤ s ∧ s < 85) ∧
    (risk s = Risk.Low ↔ 85 ≤ s) := by
  unfold risk
  split_ifs with ha hb <;> simp_all <;> omega

/-- Witness for C3 at the in-band score 77. -/
theorem C3_risk_partition_witness :
    (0 : ℤ) ≤ 77 ∧ (77 : ℤ) ≤ 100 ∧
      (risk 77 = Risk.Moderate ↔ 70 ≤ (77 : ℤ) ∧ (77 : ℤ) < 85) :=
  ⟨by norm_num, by norm_num,
    (C3_risk_partition 77 (by norm_num) (by norm_num)).2.1⟩

/-- C9: the analysis result never depends on the audio handle: two
invocations with handles of arbitrary (even different) types and the same
random draws produce identical results. -/
theorem C9_handle_never_inspected {α β : Type} (x : α) (y : β) (rng : Randoms) :
    analyzeAudio x rng = analyzeAudio y rng := rfl

/-- Witness for C9: a numeric handle versus the string sentinel used by the
recorder path. -/
theorem C9_handle_never_inspected_witness :
    analyzeAudio (0 : ℕ) rng0 = analyzeAudio ("recorded-audio-data") rng0 :=
  C9_handle_never_inspected (0 : ℕ) ("recorded-audio-data") rng0

/-- C5: on the empty biomarker catalog the aggregator does not fail fast:
it divides `0 / 0`, which in JavaScript silently yields `NaN` (rendered
`none` in this embedding) and flows into the result unchecked. -/
theorem C5_empty_catalog_returns_nan : calculateWeightedScore [] = none := by
  simp [calculateWeightedScore]

/-- Modelled from the spec: the clamp operation the spec describes, for the
refinement comparison of C6 -
`clamp(80, 98, x)` on integers. -/
def clampSpec (lo hi x : ℤ) : ℤ := min hi (max lo x)

/-- On `[0,1)` draws the raw confidence expression is never clamped. -/
lemma confidence_eq (u : ℚ) (h0 : 0 ≤ u) (h1 : u < 1) :
    confidence u = 85 + u * 10 - 5 := by
  have hu10 : 0 ≤ u * 10 := by positivity
  have hu10' : u * 10 < 10 := by nlinarith
  unfold confidence confidenceBase confidenceVariation
  rw [max_eq_right (by linarith), min_eq_right (by linarith)]
  ring

/-- The rounded confidence lies in `[80, 90]` for `[0,1)` draws. -/
lemma jsRound_confidence_bounds (u : ℚ) (h0 : 0 ≤ u) (h1 : u < 1) :
    80 ≤ jsRound (confidence u) ∧ jsRound (confidence u) ≤ 90 := by
  have hu10 : 0 ≤ u * 10 := by positivity
  have hu10' : u * 10 < 10 := by nlinarith
  rw [confidence_eq u h0 h1]
  exact ⟨le_jsRound (by push_cast; linarith), jsRound_le (by push_cast; linarith)⟩

/-- C6: the confidence of the result equals `clamp(80, 98, round(85 + u·10 − 5))`
and always lies in `[80, 98]`. -/
theorem C6_confidence_formula {α : Type} (x : α) (rng : Randoms)
    (res : AnalysisResult) (h : analyzeAudio x rng = some res)
    (h0 : 0 ≤ rng.confidenceU) (h1 : rng.confidenceU < 1) :
    res.confidence = clampSpec 80 98 (jsRound (85 + rng.confidenceU * 10 - 5)) ∧
    80 ≤ res.confidence ∧ res.confidence ≤ 98 := by
  rw [analyzeAudio_some] at h
  obtain rfl := Option.some.inj h
  have hb := jsRound_confidence_bounds rng.confidenceU h0 h1
  refine ⟨?_, hb.1, le_trans hb.2 (by norm_num)⟩
  show jsRound (confidence rng.confidenceU) =
    clampSpec 80 98 (jsRound (85 + rng.confidenceU * 10 - 5))
  rw [← confidence_eq rng.confidenceU h0 h1]
  unfold clampSpec
  rw [max_eq_right hb.1, min_eq_right (le_trans hb.2 (by norm_num))]

/-- Witness for C6 at the draw `u = 1/2`. -/
theorem C6_confidence_formula_witness :
    ∃ res : AnalysisResult, analyzeAudio (0 : ℕ) (rngAll (1/2)) = some res ∧
      80 ≤ res.confidence ∧ res.confidence ≤ 98 :=
  ⟨_, analyzeAudio_some (0 : ℕ) (rngAll (1/2)),
    (C6_confidence_formula (0 : ℕ) (rngAll (1/2)) _
      (analyzeAudio_some (0 : ℕ) (rngAll (1/2)))
      (by norm_num [rngAll]) (by norm_num [rngAll])).2⟩

/-- C4: for any non-empty catalog with values in `[0,100]` and positive
weights, the aggregator returns `round(Σ value·weight / Σ weight)`, an
integer in `[0,100]`; when the weights sum to 1 this is
`round(Σ value·weight)`. -/
theorem C4_aggregator_weighted_average (l : List VoiceBiomarker) (hne : l ≠ [])
    (hval : ∀ b ∈ l, (0 : ℤ) ≤ b.value ∧ b.value ≤ 100)
    (hw : ∀ b ∈ l, 0 < b.weight) :
    ∃ s : ℤ, calculateWeightedScore l = some s ∧
      s = jsRound ((l.map fun marker => (marker.value : ℚ) * marker.weight).sum /
        (l.map VoiceBiomarker.weight).sum) ∧
      0 ≤ s ∧ s ≤ 100 ∧
      ((l.map VoiceBiomarker.weight).sum = 1 →
        s = jsRound (l.map fun marker => (marker.value : ℚ) * marker.weight).sum) := by
  set W := (l.map VoiceBiomarker.weight).sum with hW
  set S := (l.map fun marker => (marker.value : ℚ) * marker.weight).sum with hS
  have hWpos : 0 < W := by
    obtain ⟨b, t, rfl⟩ : ∃ b t, l = b :: t := by
      cases l with
      | nil => exact absurd rfl hne
      | cons b t => exact ⟨b, t, rfl⟩
    have h1 : 0 < b.weight := hw b (by simp)
    have h2 : 0 ≤ (t.map VoiceBiomarker.weight).sum := by
      apply List.sum_nonneg
      intro q hq
      simp only [List.mem_map] at hq
      obtain ⟨c, hc, rfl⟩ := hq
      exact le_of_lt (hw c (by simp [hc]))
    rw [hW]
    simp only [List.map_cons, List.sum_cons]
    linarith
  have hS0 : 0 ≤ S := by
    rw [hS]
    apply List.sum_nonneg
    intro q hq
    simp only [List.mem_map] at hq
    obtain ⟨c, hc, rfl⟩ := hq
    have h1 : (0 : ℚ) ≤ (c.value : ℚ) := by exact_mod_cast (hval c hc).1
    have h2 : (0 : ℚ) ≤ c.weight := le_of_lt (hw c hc)
    exact mul_nonneg h1 h2
  have hS1 : S ≤ 100 * W := by
    rw [hS, hW, ← List.sum_map_mul_left]
    apply List.sum_le_sum
    intro c hc
    have h1 : (c.value : ℚ) ≤ 100 := by exact_mod_cast (hval c hc).2
    have h2 : 0 ≤ c.weight := le_of_lt (hw c hc)
    nlinarith
  have hcalc : calculateWeightedScore l = some (jsRound (S / W)) := by
    simp only [calculateWeightedScore, ← hW, ← hS]
    rw [if_neg (ne_of_gt hWpos)]
  have hdiv0 : 0 ≤ S / W := div_nonneg hS0 (le_of_lt hWpos)
  have hdiv1 : S / W ≤ 100 := by
    rw [div_le_iff hWpos]
    linarith
  refine ⟨jsRound (S / W), hcalc, rfl,
    le_jsRound (by push_cast; linarith), jsRound_le (by push_cast; linarith), ?_⟩
  intro hone
  rw [hone, div_one]

/-- Witness for C4 on a singleton catalog of value 80 and weight 1. -/
theorem C4_aggregator_weighted_average_witness :
    ∃ s : ℤ, calculateWeightedScore
        [⟨"phonemeArticulation", 80, 1, "phonemeArticulationDesc"⟩] = some s ∧
      s = jsRound (([⟨"phonemeArticulation", 80, 1, "phonemeArticulationDesc"⟩].map
          fun marker : VoiceBiomarker => (marker.value : ℚ) * marker.weight).sum /
        ([(⟨"phonemeArticulation", 80, 1, "phonemeArticulationDesc"⟩ : VoiceBiomarker)].map
          VoiceBiomarker.weight).sum) ∧
      0 ≤ s ∧ s ≤ 100 ∧
      (([(⟨"phonemeArticulation", 80, 1, "phonemeArticulationDesc"⟩ : VoiceBiomarker)].map
          VoiceBiomarker.weight).sum = 1 →
        s = jsRound ([⟨"phonemeArticulation", 80, 1, "phonemeArticulationDesc"⟩].map
          fun marker : VoiceBiomarker => (marker.value : ℚ) * marker.weight).sum) :=
  C4_aggregator_weighted_average
    [⟨"phonemeArticulation", 80, 1, "phonemeArticulationDesc"⟩]
    (by simp)
    (by intro b hb; simp only [List.mem_singleton] at hb; subst hb; norm_num)
    (by intro b hb; simp only [List.mem_singleton] at hb; subst hb; norm_num)

/-- Counterexample for C7: with the fractional bounds `min = 1/4`,
`max = 5/4` (a valid pair with `min < max`) and the draw 0, the returned
integer 0 lies below `min`, so the output is not an integer in
`[min, max]`. -/
theorem C7_counterexample :
    (1/4 : ℚ) < 5/4 ∧
    generateWeightedValue (1/4) (5/4) 0 = 0 ∧
    ¬((1/4 : ℚ) ≤ ((generateWeightedValue (1/4) (5/4) 0 : ℤ) : ℚ)) := by
  refine ⟨by norm_num, ?_, ?_⟩ <;>
    norm_num [generateWeightedValue, jsRound]

/-- C7 (amended): for integer bounds `min < max` and any draw in `[0,1)`
(the draw standing for `u^0.7`, which ranges over `[0,1)` exactly when `u`
does), `weightedRandom` returns `round(min + raw·(max − min))`, an integer
in `[min, max]`. -/
theorem C7_weighted_random_range (a b : ℤ) (raw : ℚ) (hab : a < b)
    (h0 : 0 ≤ raw) (h1 : raw < 1) :
    generateWeightedValue (a : ℚ) (b : ℚ) raw =
      jsRound ((a : ℚ) + raw * ((b : ℚ) - (a : ℚ))) ∧
    a ≤ generateWeightedValue (a : ℚ) (b : ℚ) raw ∧
    generateWeightedValue (a : ℚ) (b : ℚ) raw ≤ b :=
  ⟨rfl, generateWeightedValue_bounds a b raw (le_of_lt hab) h0 h1⟩

/-- Witness for the amended C7 at bounds 60, 90 and draw 1/2. -/
theorem C7_weighted_random_range_witness :
    (60 : ℤ) < 90 ∧
    (60 : ℤ) ≤ generateWeightedValue ((60 : ℤ) : ℚ) ((90 : ℤ) : ℚ) (1/2) ∧
    generateWeightedValue ((60 : ℤ) : ℚ) ((90 : ℤ) : ℚ) (1/2) ≤ 90 :=
  ⟨by norm_num,
    (C7_weighted_random_range 60 90 (1/2) (by norm_num) (by norm_num) (by norm_num)).2⟩

/-- C8: the catalog always holds exactly 8 biomarkers in fixed order with
the fixed weights (summing to exactly 1) and fixed names and descriptions;
the values are drawn with fixed per-biomarker bounds, each bound pair
contained in `[60, 95]`; only the values depend on the draws. -/
theorem C8_catalog_fixed (r : Fin 8 → ℚ) :
    (biomarkers r).length = 8 ∧
    ((biomarkers r).map fun b => (b.name, b.weight, b.description)) =
      [("phonemeArticulation", (0.15 : ℚ), "phonemeArticulationDesc"),
       ("pauseFrequency", 0.12, "pauseFrequencyDesc"),
       ("lexicalDiversity", 0.13, "lexicalDiversityDesc"),
       ("speechRateConsistency", 0.10, "speechRateConsistencyDesc"),
       ("semanticCoherenceBio", 0.18, "semanticCoherenceBioDesc"),
       ("prosodicVariation", 0.12, "prosodicVariationDesc"),
       ("voiceTremor", 0.10, "voiceTremorDesc"),
       ("wordFindingDelay", 0.10, "wordFindingDelayDesc")] ∧
    ((biomarkers r).map VoiceBiomarker.weight).sum = 1 ∧
    (biomarkers r).map VoiceBiomarker.value =
      List.zipWith (fun p i => generateWeightedValue p.1 p.2 (r i))
        biomarkerBounds (List.finRange 8) ∧
    ∀ p ∈ biomarkerBounds, (60 : ℚ) ≤ p.1 ∧ p.1 < p.2 ∧ p.2 ≤ 95 := by
  refine ⟨rfl, rfl, biomarkers_weight_sum r, ?_, ?_⟩
  · rfl
  · intro p hp
    fin_cases hp <;> norm_num

/-- Witness for C8 at the all-zero draws. -/
theorem C8_catalog_fixed_witness :
    (biomarkers (fun _ => 0)).length = 8 ∧
    ((biomarkers (fun _ => 0)).map VoiceBiomarker.weight).sum = 1 :=
  ⟨(C8_catalog_fixed (fun _ => 0)).1, (C8_catalog_fixed (fun _ => 0)).2.2.1⟩

/-- Counterexample for C1: an actual invocation with composite score 80 and
an indicator draw of 0 yields `speechClarity = 70`, which deviates from the
score by 10 — more than the claimed spread of 8 — and differs from the
value `correlatedRandom(80, 8)` would give at the same draw (72).  The
source uses spread 10 for `speechClarity`, not 8. -/
theorem C1_counterexample :
    (∃ res : AnalysisResult, analyzeAudio ("recorded-audio-data") rngMid = some res ∧
      res.score = 80 ∧ res.indicators.speechClarity = 70) ∧
    generateConsistentValue 80 8 0 = 72 ∧
    ¬((80 : ℤ) - 70 ≤ 8) := by
  refine ⟨⟨_, analyzeAudio_some ("recorded-audio-data") rngMid, ?_, ?_⟩,
    by norm_num [generateConsistentValue, jsRound], by norm_num⟩
  · exact scoreOf_rngMid
  · show (indicators (scoreOf rngMid.biomarkerRaw) rngMid.indicatorU).speechClarity = 70
    rw [scoreOf_rngMid]
    norm_num [indicators, rngMid, generateConsistentValue, jsRound]

/-- A single indicator field at a base in `[65,93]` (the reachable score
range), a non-negative integer spread and a `[0,1)` draw stays in `[0,100]`
and within the spread of the base. -/
lemma indicator_field_ok (base v : ℤ) (u : ℚ) (hb : 65 ≤ base) (hb' : base ≤ 93)
    (hvpos : 0 ≤ v) (hu : 0 ≤ u) (hu' : u < 1) :
    0 ≤ generateConsistentValue (base : ℚ) (v : ℚ) u ∧
      generateConsistentValue (base : ℚ) (v : ℚ) u ≤ 100 ∧
      |generateConsistentValue (base : ℚ) (v : ℚ) u - base| ≤ v :=
  generateConsistentValue_bounds base v u (by omega) (by omega) hvpos hu hu'

/-- C1 (amended): each Indicator Set field of an actual result is produced
by `correlatedRandom(score, spread)` with the fixed spreads
10, 15, 12, 8, 10, 7, 9, 14 respectively, lies in `[0,100]` and deviates
from the composite score by at most its spread. -/
theorem C1_indicator_spreads {α : Type} (x : α) (rng : Randoms)
    (res : AnalysisResult) (hv : rng.valid) (h : analyzeAudio x rng = some res) :
    (res.indicators.speechClarity =
        generateConsistentValue (res.score : ℚ) 10 (rng.indicatorU 0) ∧
      0 ≤ res.indicators.speechClarity ∧ res.indicators.speechClarity ≤ 100 ∧
      |res.indicators.speechClarity - res.score| ≤ 10) ∧
    (res.indicators.wordRecall =
        generateConsistentValue (res.score : ℚ) 15 (rng.indicatorU 1) ∧
      0 ≤ res.indicators.wordRecall ∧ res.indicators.wordRecall ≤ 100 ∧
      |res.indicators.wordRecall - res.score| ≤ 15) ∧
    (res.indicators.sentenceStructure =
        generateConsistentValue (res.score : ℚ) 12 (rng.indicatorU 2) ∧
      0 ≤ res.indicators.sentenceStructure ∧ res.indicators.sentenceStructure ≤ 100 ∧
      |res.indicators.sentenceStructure - res.score| ≤ 12) ∧
    (res.indicators.pausePatterns =
        generateConsistentValue (res.score : ℚ) 8 (rng.indicatorU 3) ∧
      0 ≤ res.indicators.pausePatterns ∧ res.indicators.pausePatterns ≤ 100 ∧
      |res.indicators.pausePatterns - res.score| ≤ 8) ∧
    (res.indicators.prosody =
        generateConsistentValue (res.score : ℚ) 10 (rng.indicatorU 4) ∧
      0 ≤ res.indicators.prosody ∧ res.indicators.prosody ≤ 100 ∧
      |res.indicators.prosody - res.score| ≤ 10) ∧
    (res.indicators.articulationRate =
        generateConsistentValue (res.score : ℚ) 7 (rng.indicatorU 5) ∧
      0 ≤ res.indicators.articulationRate ∧ res.indicators.articulationRate ≤ 100 ∧
      |res.indicators.articulationRate - res.score| ≤ 7) ∧
    (res.indicators.voiceQuality =
        generateConsistentValue (res.score : ℚ) 9 (rng.indicatorU 6) ∧
      0 ≤ res.indicators.voiceQuality ∧ res.indicators.voiceQuality ≤ 100 ∧
      |res.indicators.voiceQuality - res.score| ≤ 9) ∧
    (res.indicators.semanticCoherence =
        generateConsistentValue (res.score : ℚ) 14 (rng.indicatorU 7) ∧
      0 ≤ res.indicators.semanticCoherence ∧ res.indicators.semanticCoherence ≤ 100 ∧
      |res.indicators.semanticCoherence - res.score| ≤ 14) := by
  rw [analyzeAudio_some] at h
  obtain rfl := Option.some.inj h
  obtain ⟨hbio, hcu, hind⟩ := hv
  have hs := scoreOf_bounds rng.biomarkerRaw hbio
  have k0 := indicator_field_ok (scoreOf rng.biomarkerRaw) 10 (rng.indicatorU 0)
    hs.1 hs.2 (by norm_num) (hind 0).1 (hind 0).2
  have k1 := indicator_field_ok (scoreOf rng.biomarkerRaw) 15 (rng.indicatorU 1)
    hs.1 hs.2 (by norm_num) (hind 1).1 (hind 1).2
  have k2 := indicator_field_ok (scoreOf rng.biomarkerRaw) 12 (rng.indicatorU 2)
    hs.1 hs.2 (by norm_num) (hind 2).1 (hind 2).2
  have k3 := indicator_field_ok (scoreOf rng.biomarkerRaw) 8 (rng.indicatorU 3)
    hs.1 hs.2 (by norm_num) (hind 3).1 (hind 3).2
  have k4 := indicator_field_ok (scoreOf rng.biomarkerRaw) 10 (rng.indicatorU 4)
    hs.1 hs.2 (by norm_num) (hind 4).1 (hind 4).2
  have k5 := indicator_field_ok (scoreOf rng.biomarkerRaw) 7 (rng.indicatorU 5)
    hs.1 hs.2 (by norm_num) (hind 5).1 (hind 5).2
  have k6 := indicator_field_ok (scoreOf rng.biomarkerRaw) 9 (rng.indicatorU 6)
    hs.1 hs.2 (by norm_num) (hind 6).1 (hind 6).2
  have k7 := indicator_field_ok (scoreOf rng.biomarkerRaw) 14 (rng.indicatorU 7)
    hs.1 hs.2 (by norm_num) (hind 7).1 (hind 7).2
  push_cast at k0 k1 k2 k3 k4 k5 k6 k7
  exact ⟨⟨rfl, k0.1, k0.2.1, k0.2.2⟩, ⟨rfl, k1.1, k1.2.1, k1.2.2⟩,
    ⟨rfl, k2.1, k2.2.1, k2.2.2⟩, ⟨rfl, k3.1, k3.2.1, k3.2.2⟩,
    ⟨rfl, k4.1, k4.2.1, k4.2.2⟩, ⟨rfl, k5.1, k5.2.1, k5.2.2⟩,
    ⟨rfl, k6.1, k6.2.1, k6.2.2⟩, ⟨rfl, k7.1, k7.2.1, k7.2.2⟩⟩

/-- Witness for the amended C1 at the all-zero draws. -/
theorem C1_indicator_spreads_witness :
    ∃ res : AnalysisResult, analyzeAudio (0 : ℕ) rng0 = some res ∧
      0 ≤ res.indicators.speechClarity ∧ res.indicators.speechClarity ≤ 100 ∧
      |res.indicators.speechClarity - res.score| ≤ 10 :=
  ⟨_, analyzeAudio_some (0 : ℕ) rng0,
    (C1_indicator_spreads (0 : ℕ) rng0 _ rng0_valid
      (analyzeAudio_some (0 : ℕ) rng0)).1.2⟩

/-- C10: for every invocation with `[0,1)` draws the composite score lies
in `[65, 93]` (tighter than the `[0,100]` of the spec), yet all three risk tiers
remain reachable. -/
theorem C10_score_range_and_tiers :
    (∀ (α : Type) (x : α) (rng : Randoms), rng.valid →
      ∀ res : AnalysisResult, analyzeAudio x rng = some res →
        65 ≤ res.score ∧ res.score ≤ 93) ∧
    (∃ rng : Randoms, rng.valid ∧ ∃ res : AnalysisResult,
      analyzeAudio (0 : ℕ) rng = some res ∧ res.risk = Risk.High) ∧
    (∃ rng : Randoms, rng.valid ∧ ∃ res : AnalysisResult,
      analyzeAudio (0 : ℕ) rng = some res ∧ res.risk = Risk.Moderate) ∧
    (∃ rng : Randoms, rng.valid ∧ ∃ res : AnalysisResult,
      analyzeAudio (0 : ℕ) rng = some res ∧ res.risk = Risk.Low) := by
  refine ⟨?_, ⟨rng0, rng0_valid, ?_⟩, ⟨rngMid, rngMid_valid, ?_⟩,
    ⟨rngHigh, rngHigh_valid, ?_⟩⟩
  · intro α x rng hv res h
    rw [analyzeAudio_some] at h
    obtain rfl := Option.some.inj h
    exact scoreOf_bounds rng.biomarkerRaw hv.1
  · refine ⟨_, analyzeAudio_some (0 : ℕ) rng0, ?_⟩
    show risk (scoreOf rng0.biomarkerRaw) = Risk.High
    rw [scoreOf_rng0]
    rfl
  · refine ⟨_, analyzeAudio_some (0 : ℕ) rngMid, ?_⟩
    show risk (scoreOf rngMid.biomarkerRaw) = Risk.Moderate
    rw [scoreOf_rngMid]
    rfl
  · refine ⟨_, analyzeAudio_some (0 : ℕ) rngHigh, ?_⟩
    show risk (scoreOf rngHigh.biomarkerRaw) = Risk.Low
    rw [scoreOf_rngHigh]
    rfl

/-- Witness for C10 at the all-zero draws, whose score is 65. -/
theorem C10_score_range_and_tiers_witness :
    ∃ res : AnalysisResult, analyzeAudio ("recorded-audio-data") rngHigh = some res ∧
      65 ≤ res.score ∧ res.score ≤ 93 :=
  ⟨_, analyzeAudio_some ("recorded-audio-data") rngHigh,
    C10_score_range_and_tiers.1 String ("recorded-audio-data") rngHigh rngHigh_valid _
      (analyzeAudio_some ("recorded-audio-data") rngHigh)⟩
